import Mathlib

/-!
# Target flags of gardenctl (`pkg/target/target_flags.go`)

A shallow embedding of `targetFlagsImpl`, its constructor `NewTargetFlags`, its
accessors, `ToTarget`, `IsEmpty`, `IsTargetValid` and the `Add*Flag` methods, followed
by the properties established about them.

Two collaborators are used by the file but are not part of it:

* the `Target` value of the same package (`NewTarget`, `WithControlPlane`, `Validate`),
  which the embedding takes as a parameter (`TargetPkg`);
* the flag set of `github.com/spf13/pflag` (`StringVar`, `BoolVar`, `Parse`), which is
  modelled in the section `pflag` below.
-/

namespace target

/-! ## Data model -/

/-- The struct `targetFlagsImpl`: four names and the control-plane switch. -/
structure targetFlagsImpl where
  gardenName : String
  projectName : String
  seedName : String
  shootName : String
  controlPlane : Bool
deriving DecidableEq, Repr

/-- The collaborator `Target` as `target_flags.go` uses it: `NewTarget` takes the four
names in the order garden, project, seed, shoot; `WithControlPlane` is chained on the
result; `Validate` returns an error (`some msg`) or nil (`none`). The three functions are
parameters of the embedding, since their bodies are outside `target_flags.go`. -/
structure TargetPkg (Target : Type) where
  NewTarget : String → String → String → String → Target
  WithControlPlane : Target → Bool → Target
  Validate : Target → Option String

/-- The function `NewTargetFlags(garden, project, seed, shoot, controlPlane)`. -/
def NewTargetFlags (garden project seed shoot : String) (controlPlane : Bool) :
    targetFlagsImpl :=
  { gardenName := garden
    projectName := project
    seedName := seed
    shootName := shoot
    controlPlane := controlPlane }

/-! ## Accessors -/

/-- The method `GardenName`. -/
def GardenName (tf : targetFlagsImpl) : String := tf.gardenName

/-- The method `ProjectName`. -/
def ProjectName (tf : targetFlagsImpl) : String := tf.projectName

/-- The method `SeedName`. -/
def SeedName (tf : targetFlagsImpl) : String := tf.seedName

/-- The method `ShootName`. -/
def ShootName (tf : targetFlagsImpl) : String := tf.shootName

/-- The method `ControlPlane`. -/
def ControlPlane (tf : targetFlagsImpl) : Bool := tf.controlPlane

/-! ## Conversion and predicates -/

/-- The method `ToTarget`:
`NewTarget(tf.gardenName, tf.projectName, tf.seedName, tf.shootName).WithControlPlane(tf.controlPlane)`. -/
def ToTarget {Target : Type} (pkg : TargetPkg Target) (tf : targetFlagsImpl) : Target :=
  pkg.WithControlPlane
    (pkg.NewTarget tf.gardenName tf.projectName tf.seedName tf.shootName) tf.controlPlane

/-- The method `IsEmpty`. -/
def IsEmpty (tf : targetFlagsImpl) : Bool :=
  tf.gardenName == "" && tf.projectName == "" && tf.seedName == "" && tf.shootName == ""
    && !tf.controlPlane

/-- The method `IsTargetValid`, instrumented: next to the returned boolean it gives the
list of `Target` values on which `Validate` was called, in call order. -/
def IsTargetValidTrace {Target : Type} (pkg : TargetPkg Target) (tf : targetFlagsImpl) :
    Bool × List Target :=
  if tf.gardenName == "" then
    (false, [])
  else
    let t := ToTarget pkg tf
    ((pkg.Validate t).isNone, [t])

/-- The method `IsTargetValid`: the boolean it returns. -/
def IsTargetValid {Target : Type} (pkg : TargetPkg Target) (tf : targetFlagsImpl) : Bool :=
  (IsTargetValidTrace pkg tf).1

/-! ## Read-only calls as state transformers

Every method above has a pointer receiver. The following wrapper runs one of the
read-only methods and returns its result together with the receiver as the method
leaves it; none of their bodies assigns to a field. -/

/-- The read-only methods of `targetFlagsImpl`. -/
inductive ReadCall where
  | GardenName
  | ProjectName
  | SeedName
  | ShootName
  | ControlPlane
  | ToTarget
  | IsEmpty
  | IsTargetValid
deriving DecidableEq, Repr

/-- What a read-only method returns. -/
inductive ReadResult (Target : Type) where
  | str (s : String)
  | bool (b : Bool)
  | target (t : Target)

/-- Run a read-only method on the receiver `tf`: the returned value and the receiver
afterwards. -/
def invoke {Target : Type} (pkg : TargetPkg Target) (c : ReadCall) (tf : targetFlagsImpl) :
    ReadResult Target × targetFlagsImpl :=
  match c with
  | .GardenName => (.str (GardenName tf), tf)
  | .ProjectName => (.str (ProjectName tf), tf)
  | .SeedName => (.str (SeedName tf), tf)
  | .ShootName => (.str (ShootName tf), tf)
  | .ControlPlane => (.bool (ControlPlane tf), tf)
  | .ToTarget => (.target (ToTarget pkg tf), tf)
  | .IsEmpty => (.bool (IsEmpty tf), tf)
  | .IsTargetValid => (.bool (IsTargetValid pkg tf), tf)

/-! ## The flag set of `github.com/spf13/pflag`

`AddFlags` and the `Add*Flag` methods call `flags.StringVar` and `flags.BoolVar` of the
external library pflag. The part of a `*pflag.FlagSet` these calls touch is modelled
here: the ordered collection of defined flags, the write of the default value through
the bound pointer at definition time (`newStringValue` and `newBoolValue` execute
`*p = val`), the refusal of a name that is already defined, and `Parse` for a flag set
without shorthands, with default settings. -/

/-- Address of one of the string fields of the receiver (`&tf.gardenName`, ...). -/
inductive StringPtr where
  | gardenName
  | projectName
  | seedName
  | shootName
deriving DecidableEq, Repr

/-- Address of the boolean field of the receiver (`&tf.controlPlane`). -/
inductive BoolPtr where
  | controlPlane
deriving DecidableEq, Repr

/-- The assignment `*p = v` through a string pointer. -/
def StringPtr.store (p : StringPtr) (v : String) (tf : targetFlagsImpl) : targetFlagsImpl :=
  match p with
  | .gardenName => { tf with gardenName := v }
  | .projectName => { tf with projectName := v }
  | .seedName => { tf with seedName := v }
  | .shootName => { tf with shootName := v }

/-- The assignment `*p = v` through a bool pointer. -/
def BoolPtr.store (p : BoolPtr) (v : Bool) (tf : targetFlagsImpl) : targetFlagsImpl :=
  match p with
  | .controlPlane => { tf with controlPlane := v }

/-- A defined flag, as the defining call gave it: `StringVar(p, name, value, usage)` or
`BoolVar(p, name, value, usage)`, where `value` is the default. -/
inductive Flag where
  | stringVar (p : StringPtr) (name : String) (value : String) (usage : String)
  | boolVar (p : BoolPtr) (name : String) (value : Bool) (usage : String)
deriving DecidableEq, Repr

/-- The name of a flag. -/
def Flag.Name : Flag → String
  | .stringVar _ name _ _ => name
  | .boolVar _ name _ _ => name

/-- The usage text of a flag. -/
def Flag.Usage : Flag → String
  | .stringVar _ _ _ usage => usage
  | .boolVar _ _ _ usage => usage

/-- The value used for `--name` written without `=value`: `BoolVar` sets it to `"true"`,
a string flag has none. -/
def Flag.NoOptDefVal : Flag → String
  | .stringVar _ _ _ _ => ""
  | .boolVar _ _ _ _ => "true"

/-- The default value of a flag together with its type. -/
inductive DefaultValue where
  | str (s : String)
  | bool (b : Bool)
deriving DecidableEq, Repr

/-- The default a flag was defined with (the argument `value` of the defining call). -/
def Flag.Default : Flag → DefaultValue
  | .stringVar _ _ value _ => .str value
  | .boolVar _ _ value _ => .bool value

/-- The flags of a `FlagSet`, in the order of their definition. -/
structure FlagSet where
  formal : List Flag
deriving DecidableEq, Repr

/-- A flag set on which nothing is defined yet (`pflag.NewFlagSet`). -/
def NewFlagSet : FlagSet := { formal := [] }

/-- The flag defined under `name`, if any. -/
def FlagSet.lookup (f : FlagSet) (name : String) : Option Flag :=
  f.formal.find? (fun flag => flag.Name == name)

/-- The library function `FlagSet.AddFlag`: appends the flag, and panics (`none`) when
the name is defined already. -/
def FlagSet.AddFlag (f : FlagSet) (flag : Flag) : Option FlagSet :=
  if (f.lookup flag.Name).isSome then none
  else some { formal := f.formal ++ [flag] }

/-- The library function `FlagSet.StringVar(p, name, value, usage)`: stores the default
in `*p`, then defines the flag. -/
def FlagSet.StringVar (f : FlagSet) (tf : targetFlagsImpl) (p : StringPtr)
    (name value usage : String) : Option (targetFlagsImpl × FlagSet) :=
  let tf1 := p.store value tf
  (f.AddFlag (.stringVar p name value usage)).map (fun f1 => (tf1, f1))

/-- The library function `FlagSet.BoolVar(p, name, value, usage)`: stores the default in
`*p`, then defines the flag. -/
def FlagSet.BoolVar (f : FlagSet) (tf : targetFlagsImpl) (p : BoolPtr)
    (name : String) (value : Bool) (usage : String) : Option (targetFlagsImpl × FlagSet) :=
  let tf1 := p.store value tf
  (f.AddFlag (.boolVar p name value usage)).map (fun f1 => (tf1, f1))

/-! ## The `Add*Flag` methods

Each takes the receiver and the flag set and returns both as the call leaves them, or
`none` when the library panics. -/

/-- The method `AddGardenFlag`. -/
def AddGardenFlag (tf : targetFlagsImpl) (flags : FlagSet) :
    Option (targetFlagsImpl × FlagSet) :=
  flags.StringVar tf .gardenName "garden" "" "target the given garden cluster"

/-- The method `AddProjectFlag`. -/
def AddProjectFlag (tf : targetFlagsImpl) (flags : FlagSet) :
    Option (targetFlagsImpl × FlagSet) :=
  flags.StringVar tf .projectName "project" "" "target the given project"

/-- The method `AddSeedFlag`. -/
def AddSeedFlag (tf : targetFlagsImpl) (flags : FlagSet) :
    Option (targetFlagsImpl × FlagSet) :=
  flags.StringVar tf .seedName "seed" "" "target the given seed cluster"

/-- The method `AddShootFlag`. -/
def AddShootFlag (tf : targetFlagsImpl) (flags : FlagSet) :
    Option (targetFlagsImpl × FlagSet) :=
  flags.StringVar tf .shootName "shoot" "" "target the given shoot cluster"

/-- The method `AddControlPlaneFlag`: the default passed to `BoolVar` is the value the
field holds at the time of the call. -/
def AddControlPlaneFlag (tf : targetFlagsImpl) (flags : FlagSet) :
    Option (targetFlagsImpl × FlagSet) :=
  flags.BoolVar tf .controlPlane "control-plane" tf.controlPlane
    "target control plane of shoot, use together with shoot argument"

/-- The method `AddFlags`: the five `Add*Flag` calls in source order. -/
def AddFlags (tf : targetFlagsImpl) (flags : FlagSet) :
    Option (targetFlagsImpl × FlagSet) := do
  let (tf1, f1) ← AddGardenFlag tf flags
  let (tf2, f2) ← AddProjectFlag tf1 f1
  let (tf3, f3) ← AddSeedFlag tf2 f2
  let (tf4, f4) ← AddShootFlag tf3 f3
  AddControlPlaneFlag tf4 f4

/-! ## Parsing

`FlagSet.Parse` of pflag for a flag set whose flags have no shorthand (none of the
`Add*Flag` methods gives one), with the library defaults: positional arguments may be
interspersed, unknown flags are errors, and the error is returned to the caller. -/

/-- The errors `Parse` can return. -/
inductive ParseError where
  | badFlagSyntax
  | unknownFlag
  | helpRequested
  | needsArgument
  | invalidArgument
  | unknownShorthand
deriving DecidableEq, Repr

/-- The Go function `strconv.ParseBool`. -/
def ParseBool (s : String) : Option Bool :=
  if s ∈ ["1", "t", "T", "TRUE", "true", "True"] then some true
  else if s ∈ ["0", "f", "F", "FALSE", "false", "False"] then some false
  else none

/-- Setting a flag from the text `value` (`flag.Value.Set(value)`): a string flag stores
the text through its pointer; a bool flag stores the parsed boolean, and on text that is
no boolean stores `false` and reports the error. -/
def Flag.Set (flag : Flag) (value : String) (tf : targetFlagsImpl) :
    targetFlagsImpl × Option ParseError :=
  match flag with
  | .stringVar p _ _ _ => (p.store value tf, none)
  | .boolVar p _ _ _ =>
    match ParseBool value with
    | some b => (p.store b tf, none)
    | none => (p.store false tf, some .invalidArgument)

/-- The Go call `strings.SplitN(name, "=", 2)` on the characters of `name`: the part
before the first `=`, and the part after it when there is one. -/
def splitAtEq : List Char → List Char × Option (List Char)
  | [] => ([], none)
  | c :: cs =>
    if c = '=' then ([], some cs)
    else ((c :: (splitAtEq cs).1), (splitAtEq cs).2)

/-- What the body of the loop of `FlagSet.parseArgs` decides for one argument. -/
inductive Step where
  -- the loop ends: at the terminator `--` (no error) or with an error
  | stop (tf : targetFlagsImpl) (err : Option ParseError)
  -- the loop goes on with the arguments that follow
  | next (tf : targetFlagsImpl)
  -- the argument that follows was consumed as the value of the flag (`--flag arg`)
  | skip (tf : targetFlagsImpl)
deriving DecidableEq, Repr

/-- The outcome of calling `flag.Set`, as a step of the loop. -/
def afterSet (r : targetFlagsImpl × Option ParseError) (consumed : Bool) : Step :=
  match r with
  | (tf1, some e) => .stop tf1 (some e)
  | (tf1, none) => if consumed then .skip tf1 else .next tf1

/-- One pass through the body of the loop of `FlagSet.parseArgs` for the argument `s`,
where `args` are the arguments after it (`parseLongArg` and `parseShortArg` inlined). -/
def parseArg (f : FlagSet) (s : String) (args : List String) (tf : targetFlagsImpl) : Step :=
  match s.data with
  | [] => .next tf
  | [_] => .next tf
  | c0 :: c1 :: rest =>
    if c0 ≠ '-' then
      -- a positional argument
      .next tf
    else if c1 = '-' then
      if rest = [] then
        -- "--" terminates the flags
        .stop tf none
      else if rest.head? = some '-' ∨ rest.head? = some '=' then
        .stop tf (some .badFlagSyntax)
      else
        match f.lookup (String.mk (splitAtEq rest).1) with
        | none =>
          if String.mk (splitAtEq rest).1 = "help" then .stop tf (some .helpRequested)
          else .stop tf (some .unknownFlag)
        | some flag =>
          match (splitAtEq rest).2 with
          | some v =>
            -- --flag=arg
            afterSet (flag.Set (String.mk v) tf) false
          | none =>
            if flag.NoOptDefVal ≠ "" then
              -- --flag (arg was optional)
              afterSet (flag.Set flag.NoOptDefVal tf) false
            else
              match args with
              | [] => .stop tf (some .needsArgument)
              | v :: _ =>
                -- --flag arg
                afterSet (flag.Set v tf) true
    else if (c1 :: rest).take 5 = ['t', 'e', 's', 't', '.'] then
      -- a shorthand group starting with "test." is skipped
      .next tf
    else if c1 = 'h' then .stop tf (some .helpRequested)
    else .stop tf (some .unknownShorthand)

/-- The loop of `FlagSet.parseArgs`: the receiver after the arguments were consumed, and
the error that stopped the loop, if any. -/
def parseArgs (f : FlagSet) : List String → targetFlagsImpl → targetFlagsImpl × Option ParseError
  | [], tf => (tf, none)
  | [s], tf =>
    match parseArg f s [] tf with
    | .stop tf1 e => (tf1, e)
    | .next tf1 => (tf1, none)
    | .skip tf1 => (tf1, none)
  | s :: v :: args, tf =>
    match parseArg f s (v :: args) tf with
    | .stop tf1 e => (tf1, e)
    | .next tf1 => parseArgs f (v :: args) tf1
    | .skip tf1 => parseArgs f args tf1

/-- The library function `FlagSet.Parse(arguments)`. -/
def FlagSet.Parse (f : FlagSet) (arguments : List String) (tf : targetFlagsImpl) :
    targetFlagsImpl × Option ParseError :=
  parseArgs f arguments tf

/-! ## A concrete `Target` for instantiating the parameter -/

/-- Modelled from the spec: the `Target` value of `pkg/target/target.go`, which is not
among the sources. The spec describes it as a type constructible from the four strings
(garden, project, seed, shoot) with a chainable `WithControlPlane(bool)` mutator; the
rules of `Validate` are left open there, so validation is a field of `recordPkg`. -/
structure Target where
  Garden : String
  Project : String
  Seed : String
  Shoot : String
  ControlPlaneFlag : Bool
deriving DecidableEq, Repr

/-- Modelled from the spec: `NewTarget(garden, project, seed, shoot)` of the missing
`pkg/target/target.go`, storing the four names. -/
def NewTarget (garden project seed shoot : String) : Target :=
  { Garden := garden, Project := project, Seed := seed, Shoot := shoot,
    ControlPlaneFlag := false }

/-- Modelled from the spec: `WithControlPlane(bool)` of the missing
`pkg/target/target.go`, a copy with the control-plane boolean applied. -/
def Target.WithControlPlane (t : Target) (controlPlane : Bool) : Target :=
  { t with ControlPlaneFlag := controlPlane }

/-- The record `Target` with a given validation rule, as a `TargetPkg`. -/
def recordPkg (validate : Target → Option String) : TargetPkg Target :=
  { NewTarget := NewTarget
    WithControlPlane := Target.WithControlPlane
    Validate := validate }

/-- The five flags `AddFlags` defines on an empty flag set, for a receiver whose
`controlPlane` field holds `cp`. -/
def targetFlagList (cp : Bool) : List Flag :=
  [ .stringVar .gardenName "garden" "" "target the given garden cluster",
    .stringVar .projectName "project" "" "target the given project",
    .stringVar .seedName "seed" "" "target the given seed cluster",
    .stringVar .shootName "shoot" "" "target the given shoot cluster",
    .boolVar .controlPlane "control-plane" cp
      "target control plane of shoot, use together with shoot argument" ]

/-! ## Auxiliary lemmas -/

theorem IsTargetValid_eq (Target : Type) (pkg : TargetPkg Target) (tf : targetFlagsImpl) :
    IsTargetValid pkg tf =
      if tf.gardenName = "" then false else (pkg.Validate (ToTarget pkg tf)).isNone := by
  unfold IsTargetValid IsTargetValidTrace
  by_cases h : tf.gardenName = "" <;> simp [h]

theorem IsEmpty_eq_true_iff (tf : targetFlagsImpl) :
    IsEmpty tf = true ↔
      tf.gardenName = "" ∧ tf.projectName = "" ∧ tf.seedName = "" ∧ tf.shootName = "" ∧
        tf.controlPlane = false := by
  unfold IsEmpty
  simp [Bool.and_eq_true, and_assoc]

theorem AddFlags_NewFlagSet (tf : targetFlagsImpl) :
    AddFlags tf NewFlagSet =
      some (NewTargetFlags "" "" "" "" tf.controlPlane,
        { formal := targetFlagList tf.controlPlane }) := by
  simp [AddFlags, AddGardenFlag, AddProjectFlag, AddSeedFlag, AddShootFlag,
    AddControlPlaneFlag, FlagSet.StringVar, FlagSet.BoolVar, FlagSet.AddFlag,
    FlagSet.lookup, NewFlagSet, StringPtr.store, BoolPtr.store, Flag.Name,
    NewTargetFlags, targetFlagList]

theorem long_garden_data (g : String) :
    ("--garden=" ++ g).data = '-' :: '-' :: 'g' :: 'a' :: 'r' :: 'd' :: 'e' :: 'n' :: '=' :: g.data := by
  rw [String.data_append]; rfl

theorem long_shoot_data (s : String) :
    ("--shoot=" ++ s).data = '-' :: '-' :: 's' :: 'h' :: 'o' :: 'o' :: 't' :: '=' :: s.data := by
  rw [String.data_append]; rfl

theorem parseArg_long_value (f : FlagSet) (arg : String) (args : List String)
    (tf tf1 : targetFlagsImpl) (c : Char) (rest name v : List Char) (flag : Flag)
    (hdata : arg.data = '-' :: '-' :: c :: rest)
    (hc1 : c ≠ '-') (hc2 : c ≠ '=')
    (hsplit : splitAtEq (c :: rest) = (name, some v))
    (hlook : f.lookup (String.mk name) = some flag)
    (hset : flag.Set (String.mk v) tf = (tf1, none)) :
    parseArg f arg args tf = .next tf1 := by
  unfold parseArg
  rw [hdata]
  simp only [hsplit, hlook, hset]
  simp [hc1, hc2, afterSet]

theorem Parse_garden_shoot (cp : Bool) (tf : targetFlagsImpl) (g s : String) :
    FlagSet.Parse { formal := targetFlagList cp } ["--garden=" ++ g, "--shoot=" ++ s] tf =
      ({ tf with gardenName := g, shootName := s }, none) := by
  have h1 := parseArg_long_value { formal := targetFlagList cp } ("--garden=" ++ g)
        ["--shoot=" ++ s] tf { tf with gardenName := g } 'g'
        ('a' :: 'r' :: 'd' :: 'e' :: 'n' :: '=' :: g.data) ['g', 'a', 'r', 'd', 'e', 'n'] g.data
        (.stringVar .gardenName "garden" "" "target the given garden cluster")
        (long_garden_data g) (by decide) (by decide) (by simp [splitAtEq])
        (by simp [FlagSet.lookup, targetFlagList, Flag.Name])
        (by simp [Flag.Set, StringPtr.store])
  have h2 := parseArg_long_value { formal := targetFlagList cp } ("--shoot=" ++ s)
        [] { tf with gardenName := g } { tf with gardenName := g, shootName := s } 's'
        ('h' :: 'o' :: 'o' :: 't' :: '=' :: s.data) ['s', 'h', 'o', 'o', 't'] s.data
        (.stringVar .shootName "shoot" "" "target the given shoot cluster")
        (long_shoot_data s) (by decide) (by decide) (by simp [splitAtEq])
        (by simp [FlagSet.lookup, targetFlagList, Flag.Name])
        (by simp [Flag.Set, StringPtr.store])
  simp only [FlagSet.Parse, parseArgs, h1, h2]

/-- For a garden and a shoot without project and seed, `target_flags.go` adds no rule of
its own: the result follows the validation rule that is plugged in. -/
theorem IsTargetValid_garden_shoot_follows_Validate :
    IsTargetValid (recordPkg (fun _ => none)) (NewTargetFlags "g" "" "" "s" false) = true ∧
    IsTargetValid (recordPkg (fun _ => some "invalid")) (NewTargetFlags "g" "" "" "s" false)
      = false := by
  decide

theorem Name_stringVar (p : StringPtr) (name value usage : String) :
    (Flag.stringVar p name value usage).Name = name := rfl

theorem Name_boolVar (p : BoolPtr) (name : String) (value : Bool) (usage : String) :
    (Flag.boolVar p name value usage).Name = name := rfl

theorem lookup_nil (name : String) : FlagSet.lookup { formal := [] } name = none := rfl

theorem lookup_cons (flag : Flag) (l : List Flag) (name : String) :
    FlagSet.lookup { formal := flag :: l } name =
      if flag.Name = name then some flag else FlagSet.lookup { formal := l } name := by
  unfold FlagSet.lookup
  rw [List.find?_cons]
  by_cases h : flag.Name = name
  · simp [h]
  · have hb : (flag.Name == name) = false := by simpa using h
    simp [hb, h]

theorem lookup_isSome_append (l l' : List Flag) (name : String) :
    (FlagSet.lookup { formal := l ++ l' } name).isSome =
      ((FlagSet.lookup { formal := l } name).isSome ||
        (FlagSet.lookup { formal := l' } name).isSome) := by
  unfold FlagSet.lookup
  rw [List.find?_append]
  cases List.find? (fun flag => flag.Name == name) l <;> simp

/-- The library function `StringVar` on any flag set: it panics when the name is taken,
and otherwise stores the default and appends the flag. -/
theorem StringVar_eq (flags : FlagSet) (tf : targetFlagsImpl) (p : StringPtr)
    (name value usage : String) :
    flags.StringVar tf p name value usage =
      if (flags.lookup name).isSome then none
      else some (p.store value tf,
        { formal := flags.formal ++ [.stringVar p name value usage] }) := by
  unfold FlagSet.StringVar FlagSet.AddFlag
  by_cases h : (flags.lookup name).isSome = true <;> simp [Name_stringVar, h]

/-- The library function `BoolVar` on any flag set: it panics when the name is taken, and
otherwise stores the default and appends the flag. -/
theorem BoolVar_eq (flags : FlagSet) (tf : targetFlagsImpl) (p : BoolPtr)
    (name : String) (value : Bool) (usage : String) :
    flags.BoolVar tf p name value usage =
      if (flags.lookup name).isSome then none
      else some (p.store value tf,
        { formal := flags.formal ++ [.boolVar p name value usage] }) := by
  unfold FlagSet.BoolVar FlagSet.AddFlag
  by_cases h : (flags.lookup name).isSome = true <;> simp [Name_boolVar, h]

/-- The method `AddFlags` on any flag set: it panics when one of the five names is taken,
and otherwise resets the four names to "" and appends the five flags, the control-plane
default being the value of the field. -/
theorem AddFlags_eq (tf : targetFlagsImpl) (flags : FlagSet) :
    AddFlags tf flags =
      if (flags.lookup "garden").isSome ∨ (flags.lookup "project").isSome ∨
          (flags.lookup "seed").isSome ∨ (flags.lookup "shoot").isSome ∨
          (flags.lookup "control-plane").isSome then none
      else some (NewTargetFlags "" "" "" "" tf.controlPlane,
        { formal := flags.formal ++ targetFlagList tf.controlPlane }) := by
  obtain ⟨l⟩ := flags
  simp only [AddFlags, AddGardenFlag, AddProjectFlag, AddSeedFlag, AddShootFlag,
    AddControlPlaneFlag, StringVar_eq, BoolVar_eq]
  cases hg : (FlagSet.lookup { formal := l } "garden").isSome <;>
  cases hp : (FlagSet.lookup { formal := l } "project").isSome <;>
  cases hs : (FlagSet.lookup { formal := l } "seed").isSome <;>
  cases hsh : (FlagSet.lookup { formal := l } "shoot").isSome <;>
  cases hc : (FlagSet.lookup { formal := l } "control-plane").isSome <;>
  simp [lookup_isSome_append, lookup_cons, lookup_nil, Name_stringVar, Name_boolVar,
    StringPtr.store, BoolPtr.store, targetFlagList, NewTargetFlags, hg, hp, hs, hsh, hc]

/-! ## Properties -/

/-- C1: a selector built by `NewTargetFlags` with the empty garden name is not a valid
target, whatever the project, seed, shoot and control-plane arguments are, and
`Validate` is not called on the way (the list of its calls is empty). This covers the
selector with only a seed, and the one with shoot "x", seed "y" and no garden. -/
theorem C1_IsTargetValid_false_without_garden (Target : Type) (pkg : TargetPkg Target)
    (project seed shoot : String) (controlPlane : Bool) :
    IsTargetValid pkg (NewTargetFlags "" project seed shoot controlPlane) = false ∧
    (IsTargetValidTrace pkg (NewTargetFlags "" project seed shoot controlPlane)).2 = [] ∧
    IsTargetValidTrace pkg (NewTargetFlags "" "" seed "" false) = (false, []) ∧
    IsTargetValidTrace pkg (NewTargetFlags "" "" "y" "x" controlPlane) = (false, []) := by
  simp [IsTargetValid, IsTargetValidTrace, NewTargetFlags]

/-- C2: when the garden name is not empty, `IsTargetValid` returns true exactly when
`Validate`, called on the result of `ToTarget`, returns nil; this holds for every
`Validate`, and `Validate` is called once, on that target. -/
theorem C2_IsTargetValid_iff_Validate_nil (Target : Type) (pkg : TargetPkg Target)
    (tf : targetFlagsImpl) (hgarden : GardenName tf ≠ "") :
    (IsTargetValid pkg tf = true ↔ pkg.Validate (ToTarget pkg tf) = none) ∧
    (IsTargetValidTrace pkg tf).2 = [ToTarget pkg tf] := by
  have h : tf.gardenName ≠ "" := hgarden
  simp [IsTargetValid, IsTargetValidTrace, h]

/-- Witness of C2: the garden-only selector "my-garden", once with a validation rule that
accepts every target and once with one that rejects every target. -/
theorem C2_IsTargetValid_iff_Validate_nil_witness :
    GardenName (NewTargetFlags "my-garden" "" "" "" false) ≠ "" ∧
    ((IsTargetValid (recordPkg (fun _ => none)) (NewTargetFlags "my-garden" "" "" "" false)
        = true ↔
      (recordPkg (fun _ => none)).Validate
        (ToTarget (recordPkg (fun _ => none)) (NewTargetFlags "my-garden" "" "" "" false))
        = none) ∧
      (IsTargetValidTrace (recordPkg (fun _ => none))
        (NewTargetFlags "my-garden" "" "" "" false)).2 =
        [ToTarget (recordPkg (fun _ => none)) (NewTargetFlags "my-garden" "" "" "" false)]) ∧
    ((IsTargetValid (recordPkg (fun _ => some "invalid"))
        (NewTargetFlags "my-garden" "" "" "" false) = true ↔
      (recordPkg (fun _ => some "invalid")).Validate
        (ToTarget (recordPkg (fun _ => some "invalid"))
          (NewTargetFlags "my-garden" "" "" "" false)) = none) ∧
      (IsTargetValidTrace (recordPkg (fun _ => some "invalid"))
        (NewTargetFlags "my-garden" "" "" "" false)).2 =
        [ToTarget (recordPkg (fun _ => some "invalid"))
          (NewTargetFlags "my-garden" "" "" "" false)]) :=
  ⟨by decide,
   C2_IsTargetValid_iff_Validate_nil Target (recordPkg (fun _ => none))
      (NewTargetFlags "my-garden" "" "" "" false) (by decide),
   C2_IsTargetValid_iff_Validate_nil Target (recordPkg (fun _ => some "invalid"))
      (NewTargetFlags "my-garden" "" "" "" false) (by decide)⟩

/-- C3: `IsEmpty` returns true exactly when garden, project, seed and shoot are all the
empty string and controlPlane is false; a selector with one name set, or with only the
control-plane switch set, is not empty. -/
theorem C3_IsEmpty_iff_all_zero (tf : targetFlagsImpl) :
    (IsEmpty tf = true ↔
      GardenName tf = "" ∧ ProjectName tf = "" ∧ SeedName tf = "" ∧ ShootName tf = "" ∧
        ControlPlane tf = false) ∧
    (IsEmpty tf = false ↔
      GardenName tf ≠ "" ∨ ProjectName tf ≠ "" ∨ SeedName tf ≠ "" ∨ ShootName tf ≠ "" ∨
        ControlPlane tf = true) ∧
    IsEmpty (NewTargetFlags "" "" "" "" true) = false := by
  refine ⟨IsEmpty_eq_true_iff tf, ?_, by decide⟩
  rw [← Bool.not_eq_true, IsEmpty_eq_true_iff]
  simp only [GardenName, ProjectName, SeedName, ShootName, ControlPlane]
  cases tf.controlPlane
  · simp; tauto
  · simp

/-- C5: `ToTarget` returns `NewTarget(garden, project, seed, shoot)` with
`WithControlPlane(controlPlane)` applied, the arguments being the five fields in this
order; the call leaves the receiver as it was, and a second call on it returns the same
target. -/
theorem C5_ToTarget_is_NewTarget_WithControlPlane (Target : Type) (pkg : TargetPkg Target)
    (garden project seed shoot : String) (controlPlane : Bool) (tf : targetFlagsImpl) :
    ToTarget pkg (NewTargetFlags garden project seed shoot controlPlane) =
      pkg.WithControlPlane (pkg.NewTarget garden project seed shoot) controlPlane ∧
    ToTarget pkg tf =
      pkg.WithControlPlane
        (pkg.NewTarget (GardenName tf) (ProjectName tf) (SeedName tf) (ShootName tf))
        (ControlPlane tf) ∧
    invoke pkg .ToTarget tf = (.target (ToTarget pkg tf), tf) ∧
    invoke pkg .ToTarget (invoke pkg .ToTarget tf).2 = invoke pkg .ToTarget tf :=
  ⟨rfl, rfl, rfl, rfl⟩

/-- C6: for every selector and all strings g and s, `AddFlags` on an empty flag set
succeeds, and parsing `--garden=g --shoot=s` with the resulting flag set returns no error
and leaves GardenName() = g, ShootName() = s, ProjectName() = "", SeedName() = "" and
ControlPlane() equal to the default of the control-plane flag, which is the value the
selector held before. -/
theorem C6_AddFlags_then_Parse_garden_shoot (tf : targetFlagsImpl) (g s : String) :
    ∃ tf1 flags tf2,
      AddFlags tf NewFlagSet = some (tf1, flags) ∧
      flags.Parse ["--garden=" ++ g, "--shoot=" ++ s] tf1 = (tf2, none) ∧
      GardenName tf2 = g ∧ ShootName tf2 = s ∧
      ProjectName tf2 = "" ∧ SeedName tf2 = "" ∧
      (flags.lookup "control-plane").map Flag.Default = some (.bool (ControlPlane tf2)) ∧
      ControlPlane tf2 = ControlPlane tf := by
  refine ⟨_, _, _, AddFlags_NewFlagSet tf, Parse_garden_shoot _ _ g s, rfl, rfl, rfl, rfl, ?_,
    rfl⟩
  simp [FlagSet.lookup, targetFlagList, Flag.Name, Flag.Default, ControlPlane, NewTargetFlags]

/-- C7, the claim fails: on a selector whose controlPlane field is true,
`AddControlPlaneFlag` and `AddFlags` define the control-plane flag with default true, not
false, and the flags defined differ from those defined for a selector holding false. -/
theorem C7_control_plane_default_follows_field :
    (AddControlPlaneFlag (NewTargetFlags "" "" "" "" true) NewFlagSet).map
        (fun r => r.2.formal.map Flag.Default) = some [.bool true] ∧
    (AddFlags (NewTargetFlags "" "" "" "" true) NewFlagSet).map
        (fun r => r.2.formal.map Flag.Default) =
      some [.str "", .str "", .str "", .str "", .bool true] ∧
    (AddFlags (NewTargetFlags "" "" "" "" true) NewFlagSet).map
        (fun r => r.2.formal.map Flag.Default) ≠
      (AddFlags (NewTargetFlags "" "" "" "" false) NewFlagSet).map
        (fun r => r.2.formal.map Flag.Default) := by
  decide

/-- C7, amended: on any flag set, each of `AddGardenFlag`, `AddProjectFlag`, `AddSeedFlag`
and `AddShootFlag` defines its flag with the default "" whatever the selector holds, and
`AddControlPlaneFlag` defines the control-plane flag with the value of the selector's
controlPlane field as its default; `AddFlags` defines the five flags with these defaults.
A call whose flag name is already defined panics and defines nothing. -/
theorem C7_defaults_of_defined_flags (tf : targetFlagsImpl) (flags : FlagSet) :
    ((AddGardenFlag tf flags).map (fun r => r.2.formal) =
      if (flags.lookup "garden").isSome then none
      else some (flags.formal ++
        [.stringVar .gardenName "garden" "" "target the given garden cluster"])) ∧
    ((AddProjectFlag tf flags).map (fun r => r.2.formal) =
      if (flags.lookup "project").isSome then none
      else some (flags.formal ++
        [.stringVar .projectName "project" "" "target the given project"])) ∧
    ((AddSeedFlag tf flags).map (fun r => r.2.formal) =
      if (flags.lookup "seed").isSome then none
      else some (flags.formal ++
        [.stringVar .seedName "seed" "" "target the given seed cluster"])) ∧
    ((AddShootFlag tf flags).map (fun r => r.2.formal) =
      if (flags.lookup "shoot").isSome then none
      else some (flags.formal ++
        [.stringVar .shootName "shoot" "" "target the given shoot cluster"])) ∧
    ((AddControlPlaneFlag tf flags).map (fun r => r.2.formal) =
      if (flags.lookup "control-plane").isSome then none
      else some (flags.formal ++
        [.boolVar .controlPlane "control-plane" (ControlPlane tf)
          "target control plane of shoot, use together with shoot argument"])) ∧
    ((AddFlags tf flags).map (fun r => r.2.formal) =
      if (flags.lookup "garden").isSome ∨ (flags.lookup "project").isSome ∨
          (flags.lookup "seed").isSome ∨ (flags.lookup "shoot").isSome ∨
          (flags.lookup "control-plane").isSome then none
      else some (flags.formal ++
        [ .stringVar .gardenName "garden" "" "target the given garden cluster",
          .stringVar .projectName "project" "" "target the given project",
          .stringVar .seedName "seed" "" "target the given seed cluster",
          .stringVar .shootName "shoot" "" "target the given shoot cluster",
          .boolVar .controlPlane "control-plane" (ControlPlane tf)
            "target control plane of shoot, use together with shoot argument" ])) ∧
    List.map Flag.Default
        [ .stringVar .gardenName "garden" "" "target the given garden cluster",
          .stringVar .projectName "project" "" "target the given project",
          .stringVar .seedName "seed" "" "target the given seed cluster",
          .stringVar .shootName "shoot" "" "target the given shoot cluster",
          .boolVar .controlPlane "control-plane" (ControlPlane tf)
            "target control plane of shoot, use together with shoot argument" ] =
      [.str "", .str "", .str "", .str "", .bool (ControlPlane tf)] := by
  refine ⟨?_, ?_, ?_, ?_, ?_, ?_, rfl⟩
  · rw [AddGardenFlag, StringVar_eq]; split <;> rfl
  · rw [AddProjectFlag, StringVar_eq]; split <;> rfl
  · rw [AddSeedFlag, StringVar_eq]; split <;> rfl
  · rw [AddShootFlag, StringVar_eq]; split <;> rfl
  · rw [AddControlPlaneFlag, BoolVar_eq]; split <;> rfl
  · rw [AddFlags_eq]; split <;> rfl

/-- Witness of C7 (amended) on a flag set that already holds the shoot flag, for a
selector whose controlPlane field is true: `AddControlPlaneFlag` appends the control-plane
flag with default true, `AddGardenFlag` appends the garden flag with default "", and
`AddFlags` panics because the name shoot is taken. -/
theorem C7_defaults_of_defined_flags_witness :
    (AddControlPlaneFlag (NewTargetFlags "g" "p" "s" "sh" true)
        { formal := [.stringVar .shootName "shoot" "" "target the given shoot cluster"] }).map
        (fun r => r.2.formal) =
      some [ .stringVar .shootName "shoot" "" "target the given shoot cluster",
             .boolVar .controlPlane "control-plane" true
               "target control plane of shoot, use together with shoot argument" ] ∧
    (AddGardenFlag (NewTargetFlags "g" "p" "s" "sh" true)
        { formal := [.stringVar .shootName "shoot" "" "target the given shoot cluster"] }).map
        (fun r => r.2.formal) =
      some [ .stringVar .shootName "shoot" "" "target the given shoot cluster",
             .stringVar .gardenName "garden" "" "target the given garden cluster" ] ∧
    (AddFlags (NewTargetFlags "g" "p" "s" "sh" true)
        { formal := [.stringVar .shootName "shoot" "" "target the given shoot cluster"] }).map
        (fun r => r.2.formal) = none :=
  ⟨(C7_defaults_of_defined_flags (NewTargetFlags "g" "p" "s" "sh" true)
      { formal := [.stringVar .shootName "shoot" "" "target the given shoot cluster"] }
      ).2.2.2.2.1.trans (by decide),
   (C7_defaults_of_defined_flags (NewTargetFlags "g" "p" "s" "sh" true)
      { formal := [.stringVar .shootName "shoot" "" "target the given shoot cluster"] }
      ).1.trans (by decide),
   (C7_defaults_of_defined_flags (NewTargetFlags "g" "p" "s" "sh" true)
      { formal := [.stringVar .shootName "shoot" "" "target the given shoot cluster"] }
      ).2.2.2.2.2.1.trans (by decide)⟩

/-- C8: on an empty flag set `AddFlags` defines exactly five flags, in the order garden,
project, seed, shoot, control-plane; the first four are string flags with default "" and
the usage texts of the source, the last is a bool flag whose default is the selector's
controlPlane field and whose usage text is that of the source. Each `Add*Flag` alone
defines exactly its one flag. -/
theorem C8_AddFlags_defines_five_flags (tf : targetFlagsImpl) :
    (AddFlags tf NewFlagSet).map (fun r => r.2.formal) =
      some [ .stringVar .gardenName "garden" "" "target the given garden cluster",
             .stringVar .projectName "project" "" "target the given project",
             .stringVar .seedName "seed" "" "target the given seed cluster",
             .stringVar .shootName "shoot" "" "target the given shoot cluster",
             .boolVar .controlPlane "control-plane" (ControlPlane tf)
               "target control plane of shoot, use together with shoot argument" ] ∧
    (AddGardenFlag tf NewFlagSet).map (fun r => r.2.formal) =
      some [.stringVar .gardenName "garden" "" "target the given garden cluster"] ∧
    (AddProjectFlag tf NewFlagSet).map (fun r => r.2.formal) =
      some [.stringVar .projectName "project" "" "target the given project"] ∧
    (AddSeedFlag tf NewFlagSet).map (fun r => r.2.formal) =
      some [.stringVar .seedName "seed" "" "target the given seed cluster"] ∧
    (AddShootFlag tf NewFlagSet).map (fun r => r.2.formal) =
      some [.stringVar .shootName "shoot" "" "target the given shoot cluster"] ∧
    (AddControlPlaneFlag tf NewFlagSet).map (fun r => r.2.formal) =
      some [.boolVar .controlPlane "control-plane" (ControlPlane tf)
              "target control plane of shoot, use together with shoot argument"] := by
  refine ⟨?_, rfl, rfl, rfl, rfl, rfl⟩
  rw [AddFlags_NewFlagSet]
  rfl

/-- C9: an empty selector is never a valid target, whatever `Validate` decides; the
selector with all names empty and controlPlane false is empty and not valid; and the
converse fails, since the selector with only a seed is not empty and not valid either. -/
theorem C9_IsEmpty_implies_not_valid :
    (∀ (Target : Type) (pkg : TargetPkg Target) (tf : targetFlagsImpl),
      IsEmpty tf = true → IsTargetValid pkg tf = false) ∧
    (IsEmpty (NewTargetFlags "" "" "" "" false) = true ∧
      ∀ (Target : Type) (pkg : TargetPkg Target),
        IsTargetValid pkg (NewTargetFlags "" "" "" "" false) = false) ∧
    (IsEmpty (NewTargetFlags "" "" "my-seed" "" false) = false ∧
      ∀ (Target : Type) (pkg : TargetPkg Target),
        IsTargetValid pkg (NewTargetFlags "" "" "my-seed" "" false) = false) := by
  refine ⟨?_, ⟨by decide, fun _ _ => rfl⟩, ⟨by decide, fun _ _ => rfl⟩⟩
  intro Target pkg tf h
  rw [IsEmpty_eq_true_iff] at h
  rw [IsTargetValid_eq]
  simp [h.1]

/-- Witness of C9 at the empty selector, with a validation rule that accepts every
target. -/
theorem C9_IsEmpty_implies_not_valid_witness :
    IsEmpty (NewTargetFlags "" "" "" "" false) = true ∧
    IsTargetValid (recordPkg (fun _ => none)) (NewTargetFlags "" "" "" "" false) = false :=
  ⟨by decide,
   C9_IsEmpty_implies_not_valid.1 Target (recordPkg (fun _ => none))
     (NewTargetFlags "" "" "" "" false) (by decide)⟩

/-- C10: the selector `NewTargetFlags(g, p, s, sh, cp)` answers g, p, s, sh and cp through
GardenName, ProjectName, SeedName, ShootName and ControlPlane, and a call of an accessor,
of `ToTarget`, of `IsEmpty` or of `IsTargetValid` leaves the five fields as they were. -/
theorem C10_accessors_return_constructor_arguments (Target : Type) (pkg : TargetPkg Target)
    (g p s sh : String) (cp : Bool) :
    GardenName (NewTargetFlags g p s sh cp) = g ∧
    ProjectName (NewTargetFlags g p s sh cp) = p ∧
    SeedName (NewTargetFlags g p s sh cp) = s ∧
    ShootName (NewTargetFlags g p s sh cp) = sh ∧
    ControlPlane (NewTargetFlags g p s sh cp) = cp ∧
    ∀ c : ReadCall,
      (invoke pkg c (NewTargetFlags g p s sh cp)).2 = NewTargetFlags g p s sh cp := by
  refine ⟨rfl, rfl, rfl, rfl, rfl, ?_⟩
  intro c
  cases c <;> rfl

end target
